import Mathlib

/-!
Shallow embedding of the configuration-to-request compiler of the
model-photoshoot app: the method resolver and generate-click validation
from `app.py`, the prompt builders from `prompt_builder.py`, and
`prepare_image_parts` together with the batch-variation logic of
`generate_image` from `gemini_client.py`.

Python strings are modelled by Lean `String`; Python string operations
(`strip`, `upper`, `replace`, `startswith`, truthiness) are modelled by
executable char-list functions below, so that every definition evaluates
inside the kernel.  The fetch/encode capability `url_to_base64` (which
raises on network failure) is modelled as an oracle
`fetch : String → Option String`, `none` being the raised exception.
-/

/-! ### Python string primitives -/

/-- ASCII whitespace recognised by Python `str.strip`. -/
def pyIsSpace (c : Char) : Bool :=
  c = ' ' || c = '\t' || c = '\n' || c = '\r' || c = '\x0b' || c = '\x0c'

/-- Python `s.strip()`. -/
def pyStrip (s : String) : String :=
  ⟨((s.data.dropWhile pyIsSpace).reverse.dropWhile pyIsSpace).reverse⟩

/-- Python truthiness of a string: `bool(s)` is `s != ""`. -/
def pyTruthy (s : String) : Bool :=
  decide (s ≠ "")

/-- ASCII upper-casing of one character, as Python `str.upper` on ASCII. -/
def pyUpperChar (c : Char) : Char :=
  if 'a' ≤ c ∧ c ≤ 'z' then Char.ofNat (c.toNat - 32) else c

/-- Python `s.upper()` (ASCII fragment). -/
def pyUpper (s : String) : String :=
  ⟨s.data.map pyUpperChar⟩

/-- Worker for `pyReplace`; the fuel argument (bounded by the input length,
every step consumes at least one character) makes the recursion structural. -/
def pyReplaceFuel (pat rep : List Char) : Nat → List Char → List Char
  | 0, l => l
  | _ + 1, [] => []
  | fuel + 1, c :: cs =>
    if pat ≠ [] && pat.isPrefixOf (c :: cs) then
      rep ++ pyReplaceFuel pat rep fuel ((c :: cs).drop pat.length)
    else
      c :: pyReplaceFuel pat rep fuel cs

/-- Python `s.replace(pat, rep)` (all occurrences, left to right). -/
def pyReplace (s pat rep : String) : String :=
  ⟨pyReplaceFuel pat.data rep.data (s.data.length + 1) s.data⟩

/-- Python `s.startswith(pat)`. -/
def pyStartsWith (s pat : String) : Bool :=
  pat.data.isPrefixOf s.data

/-- Python `sep.join(xs)`. -/
def pyJoin (sep : String) : List String → String
  | [] => ""
  | [x] => x
  | x :: xs => x ++ sep ++ pyJoin sep xs

/-- Python `d.get(k, dflt)` on a mapping represented as an association list
in insertion order (every key is inserted at most once by this program). -/
def dict_get (m : List (String × String)) (k dflt : String) : String :=
  (List.lookup k m).getD dflt

/-- Python `k in d` on the same representation. -/
def dict_hasKey (m : List (String × String)) (k : String) : Bool :=
  (List.lookup k m).isSome

/-! ### Data model

The configuration dictionary assembled by `build_config` in `app.py`.
Field defaults mirror the `dict.get` defaults used by the readers. -/

structure ModelReference where
  method : String := ""
  text_description : String := ""
  image_url : String := ""
  face_action : String := "keep"
  new_model_description : String := ""
  deriving DecidableEq

structure Outfit where
  method : String := ""
  text_description : String := ""
  image_url : String := ""
  deriving DecidableEq

structure AdditionalItem where
  type : String := "item"
  text : String := ""
  image_url : String := ""
  deriving DecidableEq

structure JewelryLocation where
  enabled : Bool := false
  method : String := "none"
  text : String := ""
  image_url : String := ""
  deriving DecidableEq

structure Jewelry where
  neck : JewelryLocation := {}
  ears : JewelryLocation := {}
  hands_wrists : JewelryLocation := {}
  deriving DecidableEq

structure EnvironmentSection where
  category : String := "studio"
  method : String := "auto"
  text_description : String := ""
  image_url : String := ""
  deriving DecidableEq

structure PoseSection where
  method : String := "auto"
  text : String := ""
  image_url : String := ""
  strength : Rat := 4/5
  deriving DecidableEq

structure HairSection where
  method : String := "auto"
  text : String := ""
  image_url : String := ""
  deriving DecidableEq

structure Photography where
  aesthetic : String := ""
  framing : String := ""
  lighting : String := ""
  shadows : String := ""
  pose : PoseSection := {}
  hair : HairSection := {}
  deriving DecidableEq

structure OutputSettings where
  count : Nat := 1
  batch_variety : String := ""
  deriving DecidableEq

structure Config where
  model_reference : ModelReference := {}
  base_outfit : Outfit := {}
  additional_items : List AdditionalItem := []
  jewelry : Jewelry := {}
  environment : EnvironmentSection := {}
  photography : Photography := {}
  output : OutputSettings := {}
  deriving DecidableEq

/-! ### Method resolver (`determine_method`, `app.py` lines 301-313) -/

/-- `determine_method(text, image_url, default)`: auto-determine a section
method from which fields are filled.  `has_text = bool(text and
text.strip())`, `has_image = bool(image_url and image_url.strip())`. -/
def determine_method (text image_url dflt : String) : String :=
  let has_text := pyTruthy text && pyTruthy (pyStrip text)
  let has_image := pyTruthy image_url && pyTruthy (pyStrip image_url)
  if has_text && has_image then "text_and_image"
  else if has_text then "text_description"
  else if has_image then "image_reference"
  else dflt

/-! ### Generate-click validation (`app.py` lines 779-796) -/

/-- `has_model_ref = bool(config["model_reference"]["text_description"] or
config["model_reference"]["image_url"])`. -/
def has_model_ref (config : Config) : Bool :=
  pyTruthy config.model_reference.text_description || pyTruthy config.model_reference.image_url

/-- `has_outfit = bool(config["base_outfit"]["text_description"] or
config["base_outfit"]["image_url"])`. -/
def has_outfit (config : Config) : Bool :=
  pyTruthy config.base_outfit.text_description || pyTruthy config.base_outfit.image_url

/-- The required-fields validation in the click handler: `st.error` followed
by `st.stop` aborts the run, modelled as `Except.error`; otherwise the run
continues into image preparation. -/
def generate_validation (config : Config) : Except String Unit :=
  if !(has_model_ref config) && !(has_outfit config) then
    Except.error ("Please provide at least a model reference or outfit reference to generate.")
  else
    Except.ok ()

/-! ### Multimodal request parts (`gemini_client.py`) -/

/-- One element of the `parts` list sent to the generation endpoint: either
a `{"text": ...}` part or an `{"inlineData": {...}}` part. -/
inductive RequestPart where
  | text (s : String)
  | inlineImage (mimeType data : String)
  deriving DecidableEq

def RequestPart.isInlineImage : RequestPart → Bool
  | .inlineImage _ _ => true
  | _ => false

/-- Number of inline-image parts in a part sequence. -/
def inlineImageCount (parts : List RequestPart) : Nat :=
  parts.countP (fun p => p.isInlineImage)

/-- `GeminiPhotoshootClient._add_image_part` (lines 14-26): if `image_url`
is truthy, fetch and base64-encode it and append an inline part; a
fetch/encode failure (`fetch` returns `none`) only prints a warning and
appends nothing. -/
def add_image_part (fetch : String → Option String) (parts : List RequestPart)
    (image_url : String) : List RequestPart :=
  if image_url ≠ "" then
    match fetch image_url with
    | some base64_data => parts ++ [RequestPart.inlineImage ("image/jpeg") base64_data]
    | none => parts
  else parts

/-! Instructional text-part constants of `prepare_image_parts`. -/

def modelRefPartText : String :=
  "REFERENCE IMAGE 1 - MODEL: This image shows the model reference. Use the model\x27s face and appearance from this image."

def outfitPartText : String :=
  "REFERENCE IMAGE - OUTFIT: This image shows the outfit/clothing to be worn. REPLACE the model\x27s clothing with the outfit from this image."

def itemPartText (item_type : String) : String :=
  "REFERENCE IMAGE - ADDITIONAL ITEM (" ++ pyUpper item_type ++ "): This image shows a " ++ item_type ++ " to add to the outfit."

def neckPartText : String :=
  "REFERENCE IMAGE - NECK JEWELRY: This image shows the necklace/jewelry to wear around the neck. Apply this jewelry to the neck area."

def earsPartText : String :=
  "REFERENCE IMAGE - EAR JEWELRY: This image shows the earrings/jewelry to wear on the ears. Apply this jewelry to the ears."

def handsPartText : String :=
  "REFERENCE IMAGE - HAND/WRIST JEWELRY: This image shows the rings/bracelets to wear on hands and wrists. Apply this jewelry to the hands and wrists."

def environmentPartText : String :=
  "REFERENCE IMAGE - BACKGROUND: This image shows the background/environment to use for the photoshoot."

def posePartText : String :=
  "REFERENCE IMAGE - POSE: This image shows the pose to mimic. Use the pose and body positioning from this image."

def hairPartText : String :=
  "REFERENCE IMAGE - HAIRSTYLE: This image shows the hairstyle to apply. Use the hairstyle from this image."

/-- The `for idx, item in enumerate(additional_items)` loop of
`prepare_image_parts` (lines 55-63), threading the `parts` and
`image_mapping` accumulators.  (The source also increments an
`item_counter` local that is never read for labels; labels use the
enumeration index.) -/
def additional_items_loop (fetch : String → Option String) :
    List AdditionalItem → Nat → List RequestPart × List (String × String) →
    List RequestPart × List (String × String)
  | [], _, acc => acc
  | item :: rest, idx, acc =>
    if item.image_url ≠ "" then
      additional_items_loop fetch rest (idx + 1)
        (add_image_part fetch (acc.1 ++ [RequestPart.text (itemPartText item.type)]) item.image_url,
         acc.2 ++ [("item_" ++ toString idx, "the " ++ item.type ++ " reference image")])
    else
      additional_items_loop fetch rest (idx + 1) acc

/-- The body of `GeminiPhotoshootClient.prepare_image_parts`
(lines 28-113): walk the sections in the source's fixed order, and for
every section with a populated image URL append one instructional text
part, fetch/encode and append the inline image part, and register the
section's label.  The sequential mutation of `parts` and `image_mapping`
is rendered by shadowing the accumulator pair `acc`, generalised over the
initial accumulator (the source starts from `[]` and `{}`). -/
def prepare_image_parts_from (fetch : String → Option String) (config : Config)
    (acc : List RequestPart × List (String × String)) :
    List RequestPart × List (String × String) :=
  -- Model reference image
  let acc :=
    if config.model_reference.image_url ≠ "" then
      (add_image_part fetch (acc.1 ++ [RequestPart.text modelRefPartText]) config.model_reference.image_url,
       acc.2 ++ [("model_ref", "the model reference image (Image 1)")])
    else acc
  -- Base outfit image
  let acc :=
    if config.base_outfit.image_url ≠ "" then
      (add_image_part fetch (acc.1 ++ [RequestPart.text outfitPartText]) config.base_outfit.image_url,
       acc.2 ++ [("outfit", "the outfit image (which replaces the model\x27s clothing)")])
    else acc
  -- Additional items images
  let acc := additional_items_loop fetch config.additional_items 0 acc
  -- Neck jewelry
  let acc :=
    if config.jewelry.neck.enabled = true ∧ config.jewelry.neck.image_url ≠ "" then
      (add_image_part fetch (acc.1 ++ [RequestPart.text neckPartText]) config.jewelry.neck.image_url,
       acc.2 ++ [("jewelry_neck", "the neck jewelry reference image")])
    else acc
  -- Ear jewelry
  let acc :=
    if config.jewelry.ears.enabled = true ∧ config.jewelry.ears.image_url ≠ "" then
      (add_image_part fetch (acc.1 ++ [RequestPart.text earsPartText]) config.jewelry.ears.image_url,
       acc.2 ++ [("jewelry_ears", "the ear jewelry reference image")])
    else acc
  -- Hands/wrists jewelry
  let acc :=
    if config.jewelry.hands_wrists.enabled = true ∧ config.jewelry.hands_wrists.image_url ≠ "" then
      (add_image_part fetch (acc.1 ++ [RequestPart.text handsPartText]) config.jewelry.hands_wrists.image_url,
       acc.2 ++ [("jewelry_hands", "the hand/wrist jewelry reference image")])
    else acc
  -- Environment/background image
  let acc :=
    if config.environment.image_url ≠ "" then
      (add_image_part fetch (acc.1 ++ [RequestPart.text environmentPartText]) config.environment.image_url,
       acc.2 ++ [("environment", "the background/environment reference image")])
    else acc
  -- Pose reference image
  let acc :=
    if config.photography.pose.image_url ≠ "" then
      (add_image_part fetch (acc.1 ++ [RequestPart.text posePartText]) config.photography.pose.image_url,
       acc.2 ++ [("pose", "the pose reference image")])
    else acc
  -- Hair reference image
  let acc :=
    if config.photography.hair.image_url ≠ "" then
      (add_image_part fetch (acc.1 ++ [RequestPart.text hairPartText]) config.photography.hair.image_url,
       acc.2 ++ [("hair", "the hairstyle reference image")])
    else acc
  acc

/-- `GeminiPhotoshootClient.prepare_image_parts` (lines 28-113), starting
from the empty `parts` list and empty `image_mapping` of the source. -/
def prepare_image_parts (fetch : String → Option String) (config : Config) :
    List RequestPart × List (String × String) :=
  prepare_image_parts_from fetch config ([], [])

/-! Per-section contributions of `prepare_image_parts`, used to state the
fixed-order decomposition: each one is a function of its own section
only. -/

def model_ref_segment (fetch : String → Option String) (model_ref : ModelReference) :
    List RequestPart × List (String × String) :=
  (if model_ref.image_url ≠ "" then add_image_part fetch [RequestPart.text modelRefPartText] model_ref.image_url else [],
   if model_ref.image_url ≠ "" then [("model_ref", "the model reference image (Image 1)")] else [])

def outfit_segment (fetch : String → Option String) (outfit : Outfit) :
    List RequestPart × List (String × String) :=
  (if outfit.image_url ≠ "" then add_image_part fetch [RequestPart.text outfitPartText] outfit.image_url else [],
   if outfit.image_url ≠ "" then [("outfit", "the outfit image (which replaces the model\x27s clothing)")] else [])

def additional_items_segment (fetch : String → Option String) :
    List AdditionalItem → Nat → List RequestPart × List (String × String)
  | [], _ => ([], [])
  | item :: rest, idx =>
    let tail := additional_items_segment fetch rest (idx + 1)
    if item.image_url ≠ "" then
      (add_image_part fetch [RequestPart.text (itemPartText item.type)] item.image_url ++ tail.1,
       ("item_" ++ toString idx, "the " ++ item.type ++ " reference image") :: tail.2)
    else tail

def neck_segment (fetch : String → Option String) (loc : JewelryLocation) :
    List RequestPart × List (String × String) :=
  (if loc.enabled = true ∧ loc.image_url ≠ "" then add_image_part fetch [RequestPart.text neckPartText] loc.image_url else [],
   if loc.enabled = true ∧ loc.image_url ≠ "" then [("jewelry_neck", "the neck jewelry reference image")] else [])

def ears_segment (fetch : String → Option String) (loc : JewelryLocation) :
    List RequestPart × List (String × String) :=
  (if loc.enabled = true ∧ loc.image_url ≠ "" then add_image_part fetch [RequestPart.text earsPartText] loc.image_url else [],
   if loc.enabled = true ∧ loc.image_url ≠ "" then [("jewelry_ears", "the ear jewelry reference image")] else [])

def hands_segment (fetch : String → Option String) (loc : JewelryLocation) :
    List RequestPart × List (String × String) :=
  (if loc.enabled = true ∧ loc.image_url ≠ "" then add_image_part fetch [RequestPart.text handsPartText] loc.image_url else [],
   if loc.enabled = true ∧ loc.image_url ≠ "" then [("jewelry_hands", "the hand/wrist jewelry reference image")] else [])

def environment_segment (fetch : String → Option String) (environment : EnvironmentSection) :
    List RequestPart × List (String × String) :=
  (if environment.image_url ≠ "" then add_image_part fetch [RequestPart.text environmentPartText] environment.image_url else [],
   if environment.image_url ≠ "" then [("environment", "the background/environment reference image")] else [])

def pose_segment (fetch : String → Option String) (pose : PoseSection) :
    List RequestPart × List (String × String) :=
  (if pose.image_url ≠ "" then add_image_part fetch [RequestPart.text posePartText] pose.image_url else [],
   if pose.image_url ≠ "" then [("pose", "the pose reference image")] else [])

def hair_segment (fetch : String → Option String) (hair : HairSection) :
    List RequestPart × List (String × String) :=
  (if hair.image_url ≠ "" then add_image_part fetch [RequestPart.text hairPartText] hair.image_url else [],
   if hair.image_url ≠ "" then [("hair", "the hairstyle reference image")] else [])

/-! ### Section prompt builders (`prompt_builder.py`) -/

/-- `build_model_reference_prompt` (lines 14-40). -/
def build_model_reference_prompt (model_ref : ModelReference)
    (image_mapping : List (String × String)) : List String :=
  (if model_ref.text_description ≠ "" then
     ["Model appearance: " ++ model_ref.text_description ++ "."]
   else [])
  ++ (if model_ref.face_action = "keep" then
        (if model_ref.image_url ≠ "" ∧ dict_hasKey image_mapping ("model_ref") = true then
           ["CRITICAL: Extract and use the EXACT same face from "
             ++ dict_get image_mapping ("model_ref") ("")
             ++ ". The face features (eyes, nose, mouth, facial structure, skin tone, facial proportions) must match exactly. Also extract the body figure and proportions from "
             ++ dict_get image_mapping ("model_ref") ("")
             ++ ". IGNORE the background, clothing, outfit, accessories, and any other elements from the model reference image."]
         else
           ["CRITICAL: Extract and use the EXACT same face from the model reference image. The face features must match exactly. Also extract the body figure and proportions. IGNORE the background, clothing, outfit, accessories, and any other elements."])
      else if model_ref.face_action = "generate" then
        (if model_ref.new_model_description ≠ "" then
           ["Generate a new model with the following characteristics: "
             ++ model_ref.new_model_description ++ "."]
         else
           ["Generate a new model face."])
      else [])
  ++ (if model_ref.image_url ≠ "" ∧ model_ref.face_action = "keep" then
        ["IMPORTANT: The model reference image should ONLY be used to extract the face and body figure. Do not use any other elements from that image."]
      else [])

/-- `build_outfit_prompt` (lines 43-59). -/
def build_outfit_prompt (outfit : Outfit)
    (image_mapping : List (String × String)) : List String :=
  (if outfit.image_url ≠ "" then
     ["CRITICAL REQUIREMENT: Extract ONLY the clothing/outfit from "
       ++ dict_get image_mapping ("outfit") ("the outfit reference image")
       ++ ". IGNORE any person, model, face, body, or background in "
       ++ dict_get image_mapping ("outfit") ("the outfit reference image")
       ++ ". If there is a person wearing the outfit in "
       ++ dict_get image_mapping ("outfit") ("the outfit reference image")
       ++ ", extract ONLY the clothing items (shirt, dress, pants, jacket, etc.) and completely ignore the person. REPLACE the model\x27s clothing with ONLY the extracted outfit from "
       ++ dict_get image_mapping ("outfit") ("the outfit reference image")
       ++ ". Maintain the clothing design, texture, color, and details from the extracted outfit."]
   else if outfit.text_description ≠ "" then
     ["Apply the following outfit as described."]
   else [])
  ++ (if outfit.text_description ≠ "" then
        ["Outfit: " ++ outfit.text_description ++ "."]
      else [])

/-- The `item_descriptions` accumulation of `build_additional_items_prompt`
(lines 70-78), carrying the enumeration index. -/
def additional_item_descriptions (image_mapping : List (String × String)) :
    List AdditionalItem → Nat → List String
  | [], _ => []
  | item :: rest, idx =>
    (if item.text ≠ "" then
       [item.type ++ ": " ++ item.text]
     else if item.image_url ≠ "" then
       [item.type ++ ": extract ONLY the " ++ item.type ++ " from "
         ++ dict_get image_mapping ("item_" ++ toString idx) ("the " ++ item.type ++ " reference image")
         ++ ", ignore any person/background/other elements"]
     else [])
    ++ additional_item_descriptions image_mapping rest (idx + 1)

/-- `build_additional_items_prompt` (lines 62-83). -/
def build_additional_items_prompt (items : List AdditionalItem)
    (image_mapping : List (String × String)) : List String :=
  if items = [] then []
  else if additional_item_descriptions image_mapping items 0 = [] then []
  else ["Additional items: "
         ++ pyJoin ("; ") (additional_item_descriptions image_mapping items 0) ++ "."]

/-- The `jewelry_items` accumulation of `build_jewelry_prompt`
(lines 89-129): one block per body location, evaluated in source order. -/
def jewelry_items (jewelry : Jewelry)
    (image_mapping : List (String × String)) : List String :=
  -- Neck jewelry
  (if jewelry.neck.enabled = true then
     (if jewelry.neck.method = "text_description" ∧ jewelry.neck.text ≠ "" then
        ["neck: " ++ jewelry.neck.text]
      else if jewelry.neck.method = "image_reference" then
        ["neck: extract ONLY the jewelry from "
          ++ dict_get image_mapping ("jewelry_neck") ("the neck jewelry reference image")
          ++ ", ignore any person/background/other elements, apply to neck area"]
      else if jewelry.neck.method = "text_and_image" ∧ jewelry.neck.text ≠ "" then
        ["neck: " ++ jewelry.neck.text ++ " (extract jewelry from "
          ++ dict_get image_mapping ("jewelry_neck") ("the neck jewelry reference image")
          ++ ", ignore person/background)"]
      else [])
   else [])
  -- Ear jewelry
  ++ (if jewelry.ears.enabled = true then
        (if jewelry.ears.method = "text_description" ∧ jewelry.ears.text ≠ "" then
           ["ears: " ++ jewelry.ears.text]
         else if jewelry.ears.method = "image_reference" then
           ["ears: extract ONLY the jewelry from "
             ++ dict_get image_mapping ("jewelry_ears") ("the ear jewelry reference image")
             ++ ", ignore any person/background/other elements, apply to ears"]
         else if jewelry.ears.method = "text_and_image" ∧ jewelry.ears.text ≠ "" then
           ["ears: " ++ jewelry.ears.text ++ " (extract jewelry from "
             ++ dict_get image_mapping ("jewelry_ears") ("the ear jewelry reference image")
             ++ ", ignore person/background)"]
         else [])
      else [])
  -- Hands/wrists jewelry
  ++ (if jewelry.hands_wrists.enabled = true then
        (if jewelry.hands_wrists.method = "text_description" ∧ jewelry.hands_wrists.text ≠ "" then
           ["hands/wrists: " ++ jewelry.hands_wrists.text]
         else if jewelry.hands_wrists.method = "image_reference" then
           ["hands/wrists: extract ONLY the jewelry from "
             ++ dict_get image_mapping ("jewelry_hands") ("the hand/wrist jewelry reference image")
             ++ ", ignore any person/background/other elements, apply to hands and wrists"]
         else if jewelry.hands_wrists.method = "text_and_image" ∧ jewelry.hands_wrists.text ≠ "" then
           ["hands/wrists: " ++ jewelry.hands_wrists.text ++ " (extract jewelry from "
             ++ dict_get image_mapping ("jewelry_hands") ("the hand/wrist jewelry reference image")
             ++ ", ignore person/background)"]
         else [])
      else [])

/-- `build_jewelry_prompt` (lines 86-134). -/
def build_jewelry_prompt (jewelry : Jewelry)
    (image_mapping : List (String × String)) : List String :=
  if jewelry_items jewelry image_mapping = [] then []
  else ["Jewelry and accessories: "
         ++ pyJoin (", ") (jewelry_items jewelry image_mapping) ++ "."]

/-- The `category_descriptions` lookup of `build_environment_prompt`
(lines 144-150), falling back to the raw category string. -/
def categoryDescription (category : String) : String :=
  if category = "studio" then "professional studio setting"
  else if category = "indoor_lifestyle" then "indoor lifestyle environment"
  else if category = "outdoor_urban" then "outdoor urban environment"
  else if category = "outdoor_nature" then "outdoor natural environment"
  else category

/-- `build_environment_prompt` (lines 137-160).  Note the extraction branch
tests `method == "reference_image"`. -/
def build_environment_prompt (environment : EnvironmentSection)
    (image_mapping : List (String × String)) : List String :=
  ["Environment: " ++ categoryDescription environment.category ++ "."]
  ++ (if environment.method = "text_description" ∧ environment.text_description ≠ "" then
        ["Background details: " ++ environment.text_description ++ "."]
      else if environment.method = "reference_image" ∧ environment.image_url ≠ "" then
        ["CRITICAL: Extract ONLY the background/environment/scene from "
          ++ dict_get image_mapping ("environment") ("the background/environment reference image")
          ++ ". IGNORE any person, model, face, body, clothing, or foreground elements. Use ONLY the background, environment setting, and scene from "
          ++ dict_get image_mapping ("environment") ("the background/environment reference image")
          ++ "."]
      else [])

/-- The `photo_settings` accumulation of `build_photography_prompt`
(lines 169-180). -/
def photo_settings (photography : Photography) : List String :=
  (if photography.aesthetic ≠ "" then ["aesthetic: " ++ photography.aesthetic] else [])
  ++ (if photography.framing ≠ "" then ["framing: " ++ pyReplace photography.framing ("_") (" ")] else [])
  ++ (if photography.lighting ≠ "" then ["lighting: " ++ pyReplace photography.lighting ("_") (" ")] else [])

/-- The shadows handling of `build_photography_prompt` (lines 186-193):
`shadows = photography.get("shadows", "").strip()`, emit nothing for the
empty or the explicit no-requirements value, and drop a leading
`"None - "`. -/
def shadows_fragment (shadows_raw : String) : List String :=
  if pyStrip shadows_raw ≠ "" ∧ pyStrip shadows_raw ≠ "None - No specific shadow requirements" then
    ["Shadows: "
      ++ (if pyStartsWith (pyStrip shadows_raw) ("None - ") = true
          then pyReplace (pyStrip shadows_raw) ("None - ") ("")
          else pyStrip shadows_raw)
      ++ "."]
  else []

/-- `build_photography_prompt` (lines 163-218).  The pose and hair
extraction branches test `method == "reference_image"`. -/
def build_photography_prompt (photography : Photography)
    (image_mapping : List (String × String)) : List String :=
  -- Main photography settings
  (if photo_settings photography = [] then []
   else ["Photography style: " ++ pyJoin (", ") (photo_settings photography) ++ "."])
  -- Shadows
  ++ shadows_fragment photography.shadows
  -- Pose
  ++ (if photography.pose.method = "text_description" ∧ photography.pose.text ≠ "" then
        ["Pose: " ++ photography.pose.text ++ "."]
      else if photography.pose.method = "reference_image" ∧ photography.pose.image_url ≠ "" then
        ["CRITICAL: Extract ONLY the body pose, positioning, and stance from "
          ++ dict_get image_mapping ("pose") ("the pose reference image")
          ++ ". IGNORE the face, clothing, outfit, background, and other elements. Use ONLY the body positioning and pose from "
          ++ dict_get image_mapping ("pose") ("the pose reference image")
          ++ " with " ++ toString (photography.pose.strength * 100).floor ++ "% similarity."]
      else [])
  -- Hair
  ++ (if photography.hair.method = "text_description" ∧ photography.hair.text ≠ "" then
        ["Hair styling: " ++ photography.hair.text ++ "."]
      else if photography.hair.method = "reference_image" ∧ photography.hair.image_url ≠ "" then
        ["CRITICAL: Extract ONLY the hairstyle, hair texture, and hair styling from "
          ++ dict_get image_mapping ("hair") ("the hairstyle reference image")
          ++ ". IGNORE the face features, body, clothing, background, and other elements. Use ONLY the hairstyle and hair appearance from "
          ++ dict_get image_mapping ("hair") ("the hairstyle reference image")
          ++ "."]
      else if photography.hair.method = "keep_original" then
        ["Keep the original hairstyle from the reference."]
      else [])

/-- `build_quality_boost` (lines 221-229). -/
def build_quality_boost : String :=
  "realistic head to body ratio, ultra-detailed, highly realistic, professional photography, 8k uhd, cinematic lighting, soft natural light, sharp focus, perfect skin texture, lifelike eyes, accurate facial proportions, volumetric depth, subtle shadows, realistic skin tones, detailed hair strands, fine pores, depth of field, masterpiece, award-winning portrait style"

/-- The batch-consistency directive emitted by `build_photoshoot_prompt`
when more than one output is requested (line 245). -/
def consistencyDirective : String :=
  "CRITICAL CONSISTENCY REQUIREMENT: When generating multiple images, the model\x27s face, body figure, outfit, all clothing items, jewelry, and accessories must remain EXACTLY THE SAME across all generated images. Only camera angles, poses, lighting variations, and composition can differ between images. All core elements must be identical."

/-- The ordered fragment list assembled by `build_photoshoot_prompt`
(lines 232-274) before joining.  In `build_config` every section is a
populated (hence truthy) dict, so the per-section presence guards always
pass; the `additional_items` guard is the truthiness of a list. -/
def photoshoot_parts (config : Config)
    (image_mapping : List (String × String)) : List String :=
  (if config.output.count > 1 then [consistencyDirective] else [])
  ++ build_model_reference_prompt config.model_reference image_mapping
  ++ build_outfit_prompt config.base_outfit image_mapping
  ++ (if config.additional_items = [] then []
      else build_additional_items_prompt config.additional_items image_mapping)
  ++ build_jewelry_prompt config.jewelry image_mapping
  ++ build_environment_prompt config.environment image_mapping
  ++ build_photography_prompt config.photography image_mapping
  ++ [build_quality_boost]

/-- `build_photoshoot_prompt`: `" ".join(parts)`. -/
def build_photoshoot_prompt (config : Config)
    (image_mapping : List (String × String)) : String :=
  pyJoin (" ") (photoshoot_parts config image_mapping)

/-! ### Batch variation (`GeminiPhotoshootClient.generate_image`, lines 155-207) -/

/-- The fixed ordered list of 10 camera/angle variation phrases
(lines 180-191). -/
def dynamic_angle_variations : List String :=
  ["Slightly different camera angle",
   "Different pose variation",
   "Alternative composition",
   "Varied perspective",
   "Different lighting angle",
   "Alternative framing",
   "Shifted viewpoint",
   "New angle approach",
   "Fresh perspective",
   "Different positioning"]

/-- The fixed ordered list of 5 minor-adjustment phrases (lines 196-202). -/
def subtle_variation_phrases : List String :=
  ["Slight variation in expression",
   "Minor pose adjustment",
   "Subtle lighting change",
   "Small composition shift",
   "Gentle variation"]

/-- The `final_prompt` computation of `generate_image` (lines 177-204):
`if batch_index is not None and batch_variety == "dynamic_angles"` select
`variations[batch_index % len(variations)]` and prefix it, separated by a
period; `elif ... == "subtle_variations"` likewise from the 5-phrase list;
otherwise the prompt is left unchanged. -/
def generate_image_final_prompt (prompt : String) (batch_index : Option Nat)
    (batch_variety : Option String) : String :=
  match batch_index with
  | some i =>
    if batch_variety = some ("dynamic_angles") then
      dynamic_angle_variations.get ⟨i % dynamic_angle_variations.length, Nat.mod_lt i (by decide)⟩
        ++ ". " ++ prompt
    else if batch_variety = some ("subtle_variations") then
      subtle_variation_phrases.get ⟨i % subtle_variation_phrases.length, Nat.mod_lt i (by decide)⟩
        ++ ". " ++ prompt
    else prompt
  | none => prompt

/-- The request part list of `generate_image` (line 207): the text prompt
first, then the prepared image parts. -/
def generate_request_parts (final_prompt : String)
    (image_parts : List RequestPart) : List RequestPart :=
  RequestPart.text final_prompt :: image_parts

/-! ### Auxiliary definitions for the verification -/

/-- First `k` characters of a string; fragments emitted by different
builders are distinguished by a short constant leading literal. -/
def fragk (k : Nat) (s : String) : List Char :=
  s.data.take k

/-- A fetch/encode oracle that always succeeds. -/
def fetch_ok : String → Option String :=
  fun _ => some ("aGVsbG8=")

/-- A fetch/encode oracle that always fails (network error in
`url_to_base64`). -/
def fetch_fail : String → Option String :=
  fun _ => none

/-- A configuration whose only image reference is the model reference. -/
def modelImageOnlyConfig : Config :=
  { model_reference := { image_url := "https://img.example/model.jpg" } }

/-- End-to-end scenario 1 of the spec: only
`base_outfit.text_description = "red silk dress"`, no model text/image,
output count 1.  `build_config` resolves the outfit method to
`text_description`. -/
def scenario1Config : Config :=
  { base_outfit := { method := "text_description", text_description := "red silk dress" },
    output := { count := 1 } }

/-- An environment section holding only an image reference, with `method`
exactly as `build_config` produces it. -/
def c3_environment : EnvironmentSection :=
  { category := "studio",
    method := determine_method ("") ("https://img.example/bg.jpg") ("auto"),
    text_description := "",
    image_url := "https://img.example/bg.jpg" }

/-- A photography section whose pose and hair hold only image references,
with `method` exactly as `build_config` produces it. -/
def c3_photography : Photography :=
  { aesthetic := "", framing := "", lighting := "", shadows := "",
    pose := { method := determine_method ("") ("https://img.example/pose.jpg") ("auto"),
              text := "", image_url := "https://img.example/pose.jpg", strength := 4/5 },
    hair := { method := determine_method ("") ("https://img.example/hair.jpg") ("auto"),
              text := "", image_url := "https://img.example/hair.jpg" } }

/-- The labels `prepare_image_parts` registers for the sections of
`c3_environment` and `c3_photography`. -/
def c3_mapping : List (String × String) :=
  [("environment", "the background/environment reference image"),
   ("pose", "the pose reference image"),
   ("hair", "the hairstyle reference image")]

/-- Neck jewelry with both text and an image URL; `build_config` resolves
the method to `text_and_image`. -/
def c8_neck : JewelryLocation :=
  { enabled := true,
    method := determine_method ("Gold chain necklace with pendant") ("https://img.example/neck.jpg") ("none"),
    text := "Gold chain necklace with pendant",
    image_url := "https://img.example/neck.jpg" }

/-- Ear jewelry with both text and an image URL. -/
def c8_ears : JewelryLocation :=
  { enabled := true,
    method := determine_method ("Pearl stud earrings") ("https://img.example/ears.jpg") ("none"),
    text := "Pearl stud earrings",
    image_url := "https://img.example/ears.jpg" }

/-- Hand/wrist jewelry with both text and an image URL. -/
def c8_hands : JewelryLocation :=
  { enabled := true,
    method := determine_method ("Silver bracelet") ("https://img.example/hands.jpg") ("none"),
    text := "Silver bracelet",
    image_url := "https://img.example/hands.jpg" }

/-- All three jewelry locations enabled with both text and an image URL. -/
def c8_jewelry : Jewelry :=
  { neck := c8_neck, ears := c8_ears, hands_wrists := c8_hands }

/-- The labels `prepare_image_parts` registers for `c8_jewelry`. -/
def c8_mapping : List (String × String) :=
  [("jewelry_neck", "the neck jewelry reference image"),
   ("jewelry_ears", "the ear jewelry reference image"),
   ("jewelry_hands", "the hand/wrist jewelry reference image")]

/-- A configuration requesting two outputs. -/
def batchConfig : Config :=
  { output := { count := 2, batch_variety := "dynamic_angles" } }

/-- A populated configuration used to exercise the fixed section order. -/
def c7_base_config : Config :=
  { model_reference := { image_url := "https://img.example/model.jpg" },
    base_outfit := { method := "text_description", text_description := "red silk dress" },
    additional_items := [{ type := "jacket", image_url := "https://img.example/jacket.jpg" }],
    jewelry := { neck := { enabled := true, method := "image_reference",
                           image_url := "https://img.example/neck.jpg" } },
    output := { count := 2, batch_variety := "dynamic_angles" } }

/-- The same sections as `c7_base_config` with different output settings. -/
def c7_reordered_config : Config :=
  { c7_base_config with output := { count := 5, batch_variety := "subtle_variations" } }

/-! ### Structural lemmas about `prepare_image_parts` -/

/-- `_add_image_part` appends at the end, so it commutes with a left
context. -/
theorem add_image_part_append (fetch : String → Option String)
    (p q : List RequestPart) (u : String) :
    add_image_part fetch (p ++ q) u = p ++ add_image_part fetch q u := by
  unfold add_image_part
  split_ifs with h
  · cases fetch u <;> simp
  · rfl

/-- One section step of `prepare_image_parts` factors as the previous
accumulator followed by that section's own contribution. -/
theorem prepare_step_extract (c : Prop) [Decidable c] (fetch : String → Option String)
    (acc : List RequestPart × List (String × String)) (t u : String) (e : String × String) :
    (if c then (add_image_part fetch (acc.1 ++ [RequestPart.text t]) u, acc.2 ++ [e]) else acc)
      = (acc.1 ++ (if c then add_image_part fetch [RequestPart.text t] u else []),
         acc.2 ++ (if c then [e] else [])) := by
  split_ifs with h
  · rw [add_image_part_append]
  · simp

/-- Component form of `prepare_step_extract`, matching an accumulator that
is already a literal pair. -/
theorem prepare_step_extract_mk (c : Prop) [Decidable c] (fetch : String → Option String)
    (ps : List RequestPart) (ms : List (String × String)) (t u : String) (e : String × String) :
    (if c then (add_image_part fetch (ps ++ [RequestPart.text t]) u, ms ++ [e]) else (ps, ms))
      = (ps ++ (if c then add_image_part fetch [RequestPart.text t] u else []),
         ms ++ (if c then [e] else [])) :=
  prepare_step_extract c fetch (ps, ms) t u e

/-- The additional-items loop factors as the incoming accumulator followed
by the items' own contribution. -/
theorem additional_items_loop_eq (fetch : String → Option String) (items : List AdditionalItem)
    (idx : Nat) (acc : List RequestPart × List (String × String)) :
    additional_items_loop fetch items idx acc
      = (acc.1 ++ (additional_items_segment fetch items idx).1,
         acc.2 ++ (additional_items_segment fetch items idx).2) := by
  induction items generalizing idx acc with
  | nil => simp [additional_items_loop, additional_items_segment]
  | cons item rest ih =>
    unfold additional_items_loop additional_items_segment
    split_ifs with h
    · rw [ih]
      simp [add_image_part_append, List.append_assoc]
    · rw [ih]

/-- The accumulator chain factors as the initial accumulator followed by
the per-section contributions in the source's fixed section order. -/
theorem prepare_image_parts_from_eq (fetch : String → Option String) (config : Config)
    (acc : List RequestPart × List (String × String)) :
    prepare_image_parts_from fetch config acc
      = (acc.1
          ++ (model_ref_segment fetch config.model_reference).1
          ++ (outfit_segment fetch config.base_outfit).1
          ++ (additional_items_segment fetch config.additional_items 0).1
          ++ (neck_segment fetch config.jewelry.neck).1
          ++ (ears_segment fetch config.jewelry.ears).1
          ++ (hands_segment fetch config.jewelry.hands_wrists).1
          ++ (environment_segment fetch config.environment).1
          ++ (pose_segment fetch config.photography.pose).1
          ++ (hair_segment fetch config.photography.hair).1,
         acc.2
          ++ (model_ref_segment fetch config.model_reference).2
          ++ (outfit_segment fetch config.base_outfit).2
          ++ (additional_items_segment fetch config.additional_items 0).2
          ++ (neck_segment fetch config.jewelry.neck).2
          ++ (ears_segment fetch config.jewelry.ears).2
          ++ (hands_segment fetch config.jewelry.hands_wrists).2
          ++ (environment_segment fetch config.environment).2
          ++ (pose_segment fetch config.photography.pose).2
          ++ (hair_segment fetch config.photography.hair).2) := by
  unfold prepare_image_parts_from
  simp only [prepare_step_extract, prepare_step_extract_mk, additional_items_loop_eq]
  simp [model_ref_segment, outfit_segment, neck_segment, ears_segment, hands_segment,
        environment_segment, pose_segment, hair_segment, List.append_assoc]

/-- `prepare_image_parts` decomposes into per-section contributions in the
source's fixed section order; each contribution is a function of its own
section only. -/
theorem prepare_image_parts_eq (fetch : String → Option String) (config : Config) :
    prepare_image_parts fetch config
      = ((model_ref_segment fetch config.model_reference).1
          ++ (outfit_segment fetch config.base_outfit).1
          ++ (additional_items_segment fetch config.additional_items 0).1
          ++ (neck_segment fetch config.jewelry.neck).1
          ++ (ears_segment fetch config.jewelry.ears).1
          ++ (hands_segment fetch config.jewelry.hands_wrists).1
          ++ (environment_segment fetch config.environment).1
          ++ (pose_segment fetch config.photography.pose).1
          ++ (hair_segment fetch config.photography.hair).1,
         (model_ref_segment fetch config.model_reference).2
          ++ (outfit_segment fetch config.base_outfit).2
          ++ (additional_items_segment fetch config.additional_items 0).2
          ++ (neck_segment fetch config.jewelry.neck).2
          ++ (ears_segment fetch config.jewelry.ears).2
          ++ (hands_segment fetch config.jewelry.hands_wrists).2
          ++ (environment_segment fetch config.environment).2
          ++ (pose_segment fetch config.photography.pose).2
          ++ (hair_segment fetch config.photography.hair).2) := by
  unfold prepare_image_parts
  rw [prepare_image_parts_from_eq]
  simp

/-! ### Counting inline-image parts against registered labels -/

theorem inlineImageCount_append (p q : List RequestPart) :
    inlineImageCount (p ++ q) = inlineImageCount p + inlineImageCount q := by
  simp [inlineImageCount, List.countP_append]

/-- When the fetch succeeds, `_add_image_part` after one text part yields
exactly one inline-image part. -/
theorem add_image_part_count_success (fetch : String → Option String)
    (hf : ∀ u, (fetch u).isSome = true) (t u : String) (hu : u ≠ "") :
    inlineImageCount (add_image_part fetch [RequestPart.text t] u) = 1 := by
  unfold add_image_part
  rw [if_pos hu]
  obtain ⟨d, hd⟩ := Option.isSome_iff_exists.mp (hf u)
  rw [hd]
  simp [inlineImageCount, List.countP_cons, RequestPart.isInlineImage]

/-- Generic per-section lockstep under successful fetches: the section's
inline-image count equals its label count. -/
theorem segment_count (fetch : String → Option String)
    (hf : ∀ u, (fetch u).isSome = true) (c : Prop) [Decidable c]
    (t u : String) (e : String × String) (hcu : c → u ≠ "") :
    inlineImageCount (if c then add_image_part fetch [RequestPart.text t] u else [])
      = (if c then [e] else []).length := by
  split_ifs with h
  · rw [add_image_part_count_success fetch hf t u (hcu h)]
    rfl
  · rfl

theorem model_ref_segment_count (fetch : String → Option String)
    (hf : ∀ u, (fetch u).isSome = true) (model_ref : ModelReference) :
    inlineImageCount (model_ref_segment fetch model_ref).1
      = (model_ref_segment fetch model_ref).2.length :=
  segment_count fetch hf _ _ _ _ (fun h => h)

theorem outfit_segment_count (fetch : String → Option String)
    (hf : ∀ u, (fetch u).isSome = true) (outfit : Outfit) :
    inlineImageCount (outfit_segment fetch outfit).1
      = (outfit_segment fetch outfit).2.length :=
  segment_count fetch hf _ _ _ _ (fun h => h)

theorem additional_items_segment_count (fetch : String → Option String)
    (hf : ∀ u, (fetch u).isSome = true) (items : List AdditionalItem) (idx : Nat) :
    inlineImageCount (additional_items_segment fetch items idx).1
      = (additional_items_segment fetch items idx).2.length := by
  induction items generalizing idx with
  | nil => rfl
  | cons item rest ih =>
    unfold additional_items_segment
    split_ifs with h
    · rw [inlineImageCount_append, add_image_part_count_success fetch hf _ _ h, ih]
      simp [Nat.add_comm]
    · exact ih (idx + 1)

theorem neck_segment_count (fetch : String → Option String)
    (hf : ∀ u, (fetch u).isSome = true) (loc : JewelryLocation) :
    inlineImageCount (neck_segment fetch loc).1 = (neck_segment fetch loc).2.length :=
  segment_count fetch hf _ _ _ _ (fun h => h.2)

theorem ears_segment_count (fetch : String → Option String)
    (hf : ∀ u, (fetch u).isSome = true) (loc : JewelryLocation) :
    inlineImageCount (ears_segment fetch loc).1 = (ears_segment fetch loc).2.length :=
  segment_count fetch hf _ _ _ _ (fun h => h.2)

theorem hands_segment_count (fetch : String → Option String)
    (hf : ∀ u, (fetch u).isSome = true) (loc : JewelryLocation) :
    inlineImageCount (hands_segment fetch loc).1 = (hands_segment fetch loc).2.length :=
  segment_count fetch hf _ _ _ _ (fun h => h.2)

theorem environment_segment_count (fetch : String → Option String)
    (hf : ∀ u, (fetch u).isSome = true) (environment : EnvironmentSection) :
    inlineImageCount (environment_segment fetch environment).1
      = (environment_segment fetch environment).2.length :=
  segment_count fetch hf _ _ _ _ (fun h => h)

theorem pose_segment_count (fetch : String → Option String)
    (hf : ∀ u, (fetch u).isSome = true) (pose : PoseSection) :
    inlineImageCount (pose_segment fetch pose).1 = (pose_segment fetch pose).2.length :=
  segment_count fetch hf _ _ _ _ (fun h => h)

theorem hair_segment_count (fetch : String → Option String)
    (hf : ∀ u, (fetch u).isSome = true) (hair : HairSection) :
    inlineImageCount (hair_segment fetch hair).1 = (hair_segment fetch hair).2.length :=
  segment_count fetch hf _ _ _ _ (fun h => h)

/-! ### Distinguishing prompt fragments by a constant leading literal -/

theorem fragk_append (k : Nat) (a s : String) (h : k ≤ a.data.length) :
    fragk k (a ++ s) = fragk k a := by
  unfold fragk
  rw [String.data_append, List.take_append_of_le_length h]

/-- The batch-consistency directive differs from any string whose first
`k` characters come from a fixed literal `a` disagreeing with it. -/
theorem directive_ne_append (k : Nat) (a s : String) (h : k ≤ a.data.length)
    (hne : fragk k consistencyDirective ≠ fragk k a) :
    consistencyDirective ≠ a ++ s :=
  fun he => hne (by rw [he, fragk_append k a s h])

/-- No fragment of the model-reference builder is the batch-consistency
directive. -/
theorem directive_notin_model_ref (model_ref : ModelReference)
    (image_mapping : List (String × String)) :
    consistencyDirective ∉ build_model_reference_prompt model_ref image_mapping := by
  intro hmem
  unfold build_model_reference_prompt at hmem
  simp only [List.mem_append] at hmem
  rcases hmem with (h | h) | h
  · split at h
    · rw [List.mem_singleton, String.append_assoc] at h
      exact directive_ne_append 1 ("Model appearance: ") _ (by decide) (by decide) h
    · exact absurd h (List.not_mem_nil _)
  · split at h
    · split at h
      · rw [List.mem_singleton] at h
        simp only [String.append_assoc] at h
        exact directive_ne_append 9 ("CRITICAL: Extract and use the EXACT same face from ") _
          (by decide) (by decide) h
      · rw [List.mem_singleton] at h
        exact absurd h (by decide)
    · split at h
      · split at h
        · rw [List.mem_singleton] at h
          simp only [String.append_assoc] at h
          exact directive_ne_append 1 ("Generate a new model with the following characteristics: ") _
            (by decide) (by decide) h
        · rw [List.mem_singleton] at h
          exact absurd h (by decide)
      · exact absurd h (List.not_mem_nil _)
  · split at h
    · rw [List.mem_singleton] at h
      exact absurd h (by decide)
    · exact absurd h (List.not_mem_nil _)

/-- No fragment of the outfit builder is the batch-consistency directive. -/
theorem directive_notin_outfit (outfit : Outfit)
    (image_mapping : List (String × String)) :
    consistencyDirective ∉ build_outfit_prompt outfit image_mapping := by
  intro hmem
  unfold build_outfit_prompt at hmem
  simp only [List.mem_append] at hmem
  rcases hmem with h | h
  · split at h
    · rw [List.mem_singleton] at h
      simp only [String.append_assoc] at h
      exact directive_ne_append 10 ("CRITICAL REQUIREMENT: Extract ONLY the clothing/outfit from ") _
        (by decide) (by decide) h
    · split at h
      · rw [List.mem_singleton] at h
        exact absurd h (by decide)
      · exact absurd h (List.not_mem_nil _)
  · split at h
    · rw [List.mem_singleton, String.append_assoc] at h
      exact directive_ne_append 1 ("Outfit: ") _ (by decide) (by decide) h
    · exact absurd h (List.not_mem_nil _)

/-- No fragment of the additional-items builder is the batch-consistency
directive. -/
theorem directive_notin_items (items : List AdditionalItem)
    (image_mapping : List (String × String)) :
    consistencyDirective ∉ build_additional_items_prompt items image_mapping := by
  intro hmem
  unfold build_additional_items_prompt at hmem
  split at hmem
  · exact absurd hmem (List.not_mem_nil _)
  · split at hmem
    · exact absurd hmem (List.not_mem_nil _)
    · rw [List.mem_singleton, String.append_assoc] at hmem
      exact directive_ne_append 1 ("Additional items: ") _ (by decide) (by decide) hmem

/-- No fragment of the jewelry builder is the batch-consistency directive. -/
theorem directive_notin_jewelry (jewelry : Jewelry)
    (image_mapping : List (String × String)) :
    consistencyDirective ∉ build_jewelry_prompt jewelry image_mapping := by
  intro hmem
  unfold build_jewelry_prompt at hmem
  split at hmem
  · exact absurd hmem (List.not_mem_nil _)
  · rw [List.mem_singleton, String.append_assoc] at hmem
    exact directive_ne_append 1 ("Jewelry and accessories: ") _ (by decide) (by decide) hmem

/-- No fragment of the environment builder is the batch-consistency
directive. -/
theorem directive_notin_environment (environment : EnvironmentSection)
    (image_mapping : List (String × String)) :
    consistencyDirective ∉ build_environment_prompt environment image_mapping := by
  intro hmem
  unfold build_environment_prompt at hmem
  simp only [List.mem_append, List.mem_singleton, List.mem_cons, List.not_mem_nil, or_false] at hmem
  rcases hmem with h | h
  · rw [String.append_assoc] at h
    exact directive_ne_append 1 ("Environment: ") _ (by decide) (by decide) h
  · split at h
    · rw [List.mem_singleton, String.append_assoc] at h
      exact directive_ne_append 1 ("Background details: ") _ (by decide) (by decide) h
    · split at h
      · rw [List.mem_singleton] at h
        simp only [String.append_assoc] at h
        exact directive_ne_append 9 ("CRITICAL: Extract ONLY the background/environment/scene from ") _
          (by decide) (by decide) h
      · exact absurd h (List.not_mem_nil _)

/-- No fragment of the shadows handling is the batch-consistency
directive. -/
theorem directive_notin_shadows (shadows_raw : String) :
    consistencyDirective ∉ shadows_fragment shadows_raw := by
  intro h
  unfold shadows_fragment at h
  split at h
  · rw [List.mem_singleton, String.append_assoc] at h
    exact directive_ne_append 1 ("Shadows: ") _ (by decide) (by decide) h
  · exact absurd h (List.not_mem_nil _)

/-- No fragment of the photography builder is the batch-consistency
directive. -/
theorem directive_notin_photography (photography : Photography)
    (image_mapping : List (String × String)) :
    consistencyDirective ∉ build_photography_prompt photography image_mapping := by
  intro hmem
  unfold build_photography_prompt at hmem
  simp only [List.mem_append] at hmem
  rcases hmem with ((h | h) | h) | h
  · split at h
    · exact absurd h (List.not_mem_nil _)
    · rw [List.mem_singleton, String.append_assoc] at h
      exact directive_ne_append 1 ("Photography style: ") _ (by decide) (by decide) h
  · exact absurd h (directive_notin_shadows photography.shadows)
  · split at h
    · rw [List.mem_singleton, String.append_assoc] at h
      exact directive_ne_append 2 ("Pose: ") _ (by decide) (by decide) h
    · split at h
      · rw [List.mem_singleton] at h
        simp only [String.append_assoc] at h
        exact directive_ne_append 9 ("CRITICAL: Extract ONLY the body pose, positioning, and stance from ") _
          (by decide) (by decide) h
      · exact absurd h (List.not_mem_nil _)
  · split at h
    · rw [List.mem_singleton, String.append_assoc] at h
      exact directive_ne_append 1 ("Hair styling: ") _ (by decide) (by decide) h
    · split at h
      · rw [List.mem_singleton] at h
        simp only [String.append_assoc] at h
        exact directive_ne_append 9 ("CRITICAL: Extract ONLY the hairstyle, hair texture, and hair styling from ") _
          (by decide) (by decide) h
      · split at h
        · rw [List.mem_singleton] at h
          exact absurd h (by decide)
        · exact absurd h (List.not_mem_nil _)

/-- The batch-consistency directive occurs among the composed fragments
exactly when more than one output is requested. -/
theorem directive_mem_photoshoot_parts (config : Config)
    (image_mapping : List (String × String)) :
    consistencyDirective ∈ photoshoot_parts config image_mapping
      ↔ config.output.count > 1 := by
  constructor
  · intro h
    by_contra hc
    unfold photoshoot_parts at h
    simp only [List.mem_append] at h
    rcases h with ((((((h | h) | h) | h) | h) | h) | h) | h
    · rw [if_neg hc] at h
      exact absurd h (List.not_mem_nil _)
    · exact absurd h (directive_notin_model_ref config.model_reference image_mapping)
    · exact absurd h (directive_notin_outfit config.base_outfit image_mapping)
    · split at h
      · exact absurd h (List.not_mem_nil _)
      · exact absurd h (directive_notin_items config.additional_items image_mapping)
    · exact absurd h (directive_notin_jewelry config.jewelry image_mapping)
    · exact absurd h (directive_notin_environment config.environment image_mapping)
    · exact absurd h (directive_notin_photography config.photography image_mapping)
    · rw [List.mem_singleton] at h
      exact absurd h (by decide)
  · intro h
    unfold photoshoot_parts
    simp only [List.mem_append]
    refine Or.inl (Or.inl (Or.inl (Or.inl (Or.inl (Or.inl (Or.inl ?_))))))
    rw [if_pos h]
    exact List.mem_singleton.mpr rfl

/-- With more than one output requested, the directive is the first
fragment. -/
theorem photoshoot_parts_head (config : Config)
    (image_mapping : List (String × String)) (h : config.output.count > 1) :
    (photoshoot_parts config image_mapping).head? = some consistencyDirective := by
  unfold photoshoot_parts
  rw [if_pos h]
  rfl

theorem pyJoin_cons₂ (sep x y : String) (ys : List String) :
    pyJoin sep (x :: y :: ys) = x ++ sep ++ pyJoin sep (y :: ys) :=
  rfl

/-- A join always starts with its first element. -/
theorem pyJoin_cons_starts (sep x : String) (l : List String) :
    ∃ rest, pyJoin sep (x :: l) = x ++ rest := by
  cases l with
  | nil => exact ⟨"", by simp [pyJoin]⟩
  | cons y ys =>
    exact ⟨sep ++ pyJoin sep (y :: ys), by rw [pyJoin_cons₂, String.append_assoc]⟩

/-- With more than one output requested, the composed prompt string starts
with the directive. -/
theorem photoshoot_prompt_starts (config : Config)
    (image_mapping : List (String × String)) (h : config.output.count > 1) :
    ∃ rest, build_photoshoot_prompt config image_mapping
      = consistencyDirective ++ rest := by
  unfold build_photoshoot_prompt photoshoot_parts
  rw [if_pos h]
  simp only [List.singleton_append, List.cons_append]
  exact pyJoin_cons_starts (" ") consistencyDirective _

/-! ### Claim theorems -/

/-- Claim C4: the method resolver `determine_method` is total and matches
the precedence table exactly: both text and image non-empty after
stripping whitespace yield `text_and_image`; text only,
`text_description`; image only, `image_reference`; neither, the supplied
default. -/
theorem c4_method_resolver_table (text image_url dflt : String) :
    determine_method text image_url dflt =
      if pyStrip text ≠ "" ∧ pyStrip image_url ≠ "" then "text_and_image"
      else if pyStrip text ≠ "" then "text_description"
      else if pyStrip image_url ≠ "" then "image_reference"
      else dflt := by
  have key : ∀ s : String, (pyTruthy s && pyTruthy (pyStrip s)) = pyTruthy (pyStrip s) := by
    intro s
    by_cases hs : s = ""
    · subst hs; decide
    · have hd : decide (s ≠ "") = true := decide_eq_true hs
      simp only [pyTruthy, hd, Bool.true_and]
  simp only [determine_method]
  rw [key text, key image_url]
  by_cases p1 : pyStrip text = "" <;> by_cases p2 : pyStrip image_url = "" <;>
    simp [pyTruthy, p1, p2]

/-- Claim C2, counterexample: on a configuration whose only content is
`base_outfit.text_description = "red silk dress"` (no model text/image,
count 1), the generate-click validation passes (`ok`), so the run
proceeds into image preparation instead of failing fast: `has_outfit` is
true because outfit text alone satisfies the check. -/
theorem c2_counterexample :
    generate_validation scenario1Config = Except.ok ()
    ∧ has_model_ref scenario1Config = false
    ∧ has_outfit scenario1Config = true
    ∧ scenario1Config.output.count = 1 :=
  ⟨rfl, by decide, by decide, rfl⟩

/-- Claim C2 (amended): the validation rejects the run if and only if the
model reference and the base outfit are both devoid of text and image;
any one of the four fields (including outfit text alone) lets the run
proceed. -/
theorem c2_validation_characterisation (config : Config) :
    generate_validation config = Except.ok ()
      ↔ (config.model_reference.text_description ≠ ""
         ∨ config.model_reference.image_url ≠ ""
         ∨ config.base_outfit.text_description ≠ ""
         ∨ config.base_outfit.image_url ≠ "") := by
  unfold generate_validation
  split_ifs with h
  · simp only [Bool.and_eq_true, Bool.not_eq_true'] at h
    obtain ⟨h1, h2⟩ := h
    unfold has_model_ref at h1
    unfold has_outfit at h2
    simp only [pyTruthy, Bool.or_eq_false_iff, decide_eq_false_iff_not, not_not] at h1 h2
    constructor
    · intro he
      simp at he
    · intro hor
      rcases hor with hh | hh | hh | hh <;> simp_all
  · constructor
    · intro _
      by_contra hall
      push_neg at hall
      obtain ⟨e1, e2, e3, e4⟩ := hall
      exact h (by unfold has_model_ref has_outfit pyTruthy; simp [e1, e2, e3, e4])
    · intro _
      rfl

/-- Claim C3, failing input: the resolver classifies an image-only
environment/pose/hair section as `image_reference`, but the builders only
emit their extraction directives for the literal `"reference_image"`, so
on these inputs the environment builder yields only the category fragment
and the photography builder yields no fragment at all — no extraction
directive is produced. -/
theorem c3_resolver_builder_mismatch :
    determine_method ("") ("https://img.example/bg.jpg") ("auto") = "image_reference"
    ∧ build_environment_prompt c3_environment c3_mapping
        = ["Environment: professional studio setting."]
    ∧ build_photography_prompt c3_photography c3_mapping = [] := by
  decide

/-- Claim C5: the batch-consistency directive occurs among the composed
prompt fragments iff the requested output count exceeds 1; when it does,
it is the first fragment, and the joined prompt string starts with it. -/
theorem c5_batch_directive (config : Config)
    (image_mapping : List (String × String)) :
    (consistencyDirective ∈ photoshoot_parts config image_mapping
      ↔ config.output.count > 1)
    ∧ (config.output.count > 1 →
        (photoshoot_parts config image_mapping).head? = some consistencyDirective
        ∧ ∃ rest, build_photoshoot_prompt config image_mapping
            = consistencyDirective ++ rest) :=
  ⟨directive_mem_photoshoot_parts config image_mapping,
   fun h => ⟨photoshoot_parts_head config image_mapping h,
             photoshoot_prompt_starts config image_mapping h⟩⟩

/-- Claim C5, witness at output count 2 with an empty label mapping. -/
theorem c5_batch_directive_witness :
    consistencyDirective ∈ photoshoot_parts batchConfig []
    ∧ (photoshoot_parts batchConfig []).head? = some consistencyDirective :=
  ⟨(c5_batch_directive batchConfig []).1.mpr (by decide),
   ((c5_batch_directive batchConfig []).2 (by decide)).1⟩

/-- Claim C6: with a batch index present, the variation injector is
deterministic, selecting the phrase at `batch_index mod 10` of the fixed
dynamic-angle list (`mod 5` of the subtle-variation list), prefixed to
the base prompt and separated from it by a period. -/
theorem c6_batch_variation (p : String) (i : Nat) :
    generate_image_final_prompt p (some i) (some ("dynamic_angles"))
        = dynamic_angle_variations.get ⟨i % 10, Nat.mod_lt i (by decide)⟩ ++ ". " ++ p
    ∧ generate_image_final_prompt p (some i) (some ("subtle_variations"))
        = subtle_variation_phrases.get ⟨i % 5, Nat.mod_lt i (by decide)⟩ ++ ". " ++ p
    ∧ (∀ j : Nat, i % 10 = j % 10 →
        generate_image_final_prompt p (some i) (some ("dynamic_angles"))
          = generate_image_final_prompt p (some j) (some ("dynamic_angles")))
    ∧ (∀ j : Nat, i % 5 = j % 5 →
        generate_image_final_prompt p (some i) (some ("subtle_variations"))
          = generate_image_final_prompt p (some j) (some ("subtle_variations"))) := by
  have ed : ∀ k : Nat, generate_image_final_prompt p (some k) (some ("dynamic_angles"))
      = dynamic_angle_variations.get ⟨k % 10, Nat.mod_lt k (by decide)⟩ ++ ". " ++ p :=
    fun k => rfl
  have es : ∀ k : Nat, generate_image_final_prompt p (some k) (some ("subtle_variations"))
      = subtle_variation_phrases.get ⟨k % 5, Nat.mod_lt k (by decide)⟩ ++ ". " ++ p :=
    fun k => rfl
  refine ⟨ed i, es i, fun j hj => ?_, fun j hj => ?_⟩
  · rw [ed i, ed j]
    have hfin : (⟨i % 10, Nat.mod_lt i (by decide)⟩ : Fin dynamic_angle_variations.length)
        = ⟨j % 10, Nat.mod_lt j (by decide)⟩ := Fin.ext hj
    rw [hfin]
  · rw [es i, es j]
    have hfin : (⟨i % 5, Nat.mod_lt i (by decide)⟩ : Fin subtle_variation_phrases.length)
        = ⟨j % 5, Nat.mod_lt j (by decide)⟩ := Fin.ext hj
    rw [hfin]

/-- Claim C6, witness: indices 12 and 2 agree mod 10 (and 7 and 2 mod 5),
so the injector reuses the same phrase. -/
theorem c6_batch_variation_witness :
    (12 % 10 = 2 % 10
      ∧ generate_image_final_prompt ("studio portrait") (some 12) (some ("dynamic_angles"))
          = generate_image_final_prompt ("studio portrait") (some 2) (some ("dynamic_angles")))
    ∧ (7 % 5 = 2 % 5
      ∧ generate_image_final_prompt ("studio portrait") (some 7) (some ("subtle_variations"))
          = generate_image_final_prompt ("studio portrait") (some 2) (some ("subtle_variations"))) :=
  ⟨⟨by decide, (c6_batch_variation ("studio portrait") 12).2.2.1 2 (by decide)⟩,
   ⟨by decide, (c6_batch_variation ("studio portrait") 7).2.2.2 2 (by decide)⟩⟩

/-- Claim C7: the assembled part sequence is the concatenation of
per-section contributions in the fixed source order — model reference,
base outfit, additional items (in list order), jewelry (neck, ears,
hands/wrists), environment, pose, hair — and it is a function of the
section values only, hence invariant to how (and in which order) the
configuration was populated. -/
theorem c7_fixed_section_order (fetch : String → Option String) (cfg cfg' : Config)
    (hm : cfg'.model_reference = cfg.model_reference)
    (ho : cfg'.base_outfit = cfg.base_outfit)
    (ha : cfg'.additional_items = cfg.additional_items)
    (hj : cfg'.jewelry = cfg.jewelry)
    (he : cfg'.environment = cfg.environment)
    (hp : cfg'.photography = cfg.photography) :
    (prepare_image_parts fetch cfg).1
      = (model_ref_segment fetch cfg.model_reference).1
        ++ (outfit_segment fetch cfg.base_outfit).1
        ++ (additional_items_segment fetch cfg.additional_items 0).1
        ++ (neck_segment fetch cfg.jewelry.neck).1
        ++ (ears_segment fetch cfg.jewelry.ears).1
        ++ (hands_segment fetch cfg.jewelry.hands_wrists).1
        ++ (environment_segment fetch cfg.environment).1
        ++ (pose_segment fetch cfg.photography.pose).1
        ++ (hair_segment fetch cfg.photography.hair).1
    ∧ prepare_image_parts fetch cfg' = prepare_image_parts fetch cfg := by
  constructor
  · rw [prepare_image_parts_eq]
  · rw [prepare_image_parts_eq fetch cfg', prepare_image_parts_eq fetch cfg,
        hm, ho, ha, hj, he, hp]

/-- Claim C7, witness: two configurations sharing all styling sections but
differing in output settings produce the same part sequence. -/
theorem c7_fixed_section_order_witness :
    c7_reordered_config.output ≠ c7_base_config.output
    ∧ prepare_image_parts fetch_ok c7_reordered_config
        = prepare_image_parts fetch_ok c7_base_config :=
  ⟨by decide,
   (c7_fixed_section_order fetch_ok c7_base_config c7_reordered_config
      rfl rfl rfl rfl rfl rfl).2⟩

/-- Claim C1, counterexample: with a model-reference image URL whose fetch
fails, the label `model_ref` is still registered in the mapping (and the
instructional text part is still appended) while no inline-image part is
produced — the mapping and the inline-image parts diverge, and the label
is not omitted on failure. -/
theorem c1_label_without_inline_part :
    dict_hasKey (prepare_image_parts fetch_fail modelImageOnlyConfig).2 ("model_ref") = true
    ∧ inlineImageCount (prepare_image_parts fetch_fail modelImageOnlyConfig).1 = 0
    ∧ (prepare_image_parts fetch_fail modelImageOnlyConfig).2.length = 1
    ∧ (prepare_image_parts fetch_fail modelImageOnlyConfig).1
        = [RequestPart.text modelRefPartText] := by
  decide

/-- Claim C1 (amended): whenever every image fetch/encode succeeds, the
label mapping and the inline-image parts of `prepare_image_parts` stay in
lockstep — each registered label corresponds to exactly one inline-image
part, so the two have equal cardinality. -/
theorem c1_lockstep_on_fetch_success (fetch : String → Option String) (config : Config)
    (hf : ∀ u, (fetch u).isSome = true) :
    inlineImageCount (prepare_image_parts fetch config).1
      = (prepare_image_parts fetch config).2.length := by
  rw [prepare_image_parts_eq]
  simp only [inlineImageCount_append, List.length_append]
  rw [model_ref_segment_count fetch hf, outfit_segment_count fetch hf,
      additional_items_segment_count fetch hf, neck_segment_count fetch hf,
      ears_segment_count fetch hf, hands_segment_count fetch hf,
      environment_segment_count fetch hf, pose_segment_count fetch hf,
      hair_segment_count fetch hf]

/-- Claim C1, witness: with an always-successful fetch, the populated
configuration of C7 has as many labels as inline-image parts. -/
theorem c1_lockstep_witness :
    (∀ u, (fetch_ok u).isSome = true)
    ∧ inlineImageCount (prepare_image_parts fetch_ok c7_base_config).1
        = (prepare_image_parts fetch_ok c7_base_config).2.length :=
  ⟨fun _ => rfl, c1_lockstep_on_fetch_success fetch_ok c7_base_config (fun _ => rfl)⟩

/-- Claim C8: each enabled jewelry location whose method is
`text_and_image` with non-empty text contributes an entry combining the
free text with an extraction directive that references that location's
own image label (`jewelry_neck` / `jewelry_ears` / `jewelry_hands`, with
that location's own default description), not a generic one. -/
theorem c8_jewelry_location_specific (jewelry : Jewelry)
    (image_mapping : List (String × String)) :
    (jewelry.neck.enabled = true → jewelry.neck.method = "text_and_image" →
      jewelry.neck.text ≠ "" →
      ("neck: " ++ jewelry.neck.text ++ " (extract jewelry from "
        ++ dict_get image_mapping ("jewelry_neck") ("the neck jewelry reference image")
        ++ ", ignore person/background)") ∈ jewelry_items jewelry image_mapping)
    ∧ (jewelry.ears.enabled = true → jewelry.ears.method = "text_and_image" →
        jewelry.ears.text ≠ "" →
        ("ears: " ++ jewelry.ears.text ++ " (extract jewelry from "
          ++ dict_get image_mapping ("jewelry_ears") ("the ear jewelry reference image")
          ++ ", ignore person/background)") ∈ jewelry_items jewelry image_mapping)
    ∧ (jewelry.hands_wrists.enabled = true → jewelry.hands_wrists.method = "text_and_image" →
        jewelry.hands_wrists.text ≠ "" →
        ("hands/wrists: " ++ jewelry.hands_wrists.text ++ " (extract jewelry from "
          ++ dict_get image_mapping ("jewelry_hands") ("the hand/wrist jewelry reference image")
          ++ ", ignore person/background)") ∈ jewelry_items jewelry image_mapping) := by
  refine ⟨fun h1 h2 h3 => ?_, fun h1 h2 h3 => ?_, fun h1 h2 h3 => ?_⟩
  · unfold jewelry_items
    refine List.mem_append.mpr (Or.inl (List.mem_append.mpr (Or.inl ?_)))
    have hn1 : ¬(jewelry.neck.method = "text_description" ∧ jewelry.neck.text ≠ "") := by
      rintro ⟨ha, -⟩
      rw [h2] at ha
      exact absurd ha (by decide)
    have hn2 : jewelry.neck.method ≠ "image_reference" := by
      rw [h2]; decide
    rw [if_pos h1, if_neg hn1, if_neg hn2, if_pos ⟨h2, h3⟩]
    exact List.mem_singleton.mpr rfl
  · unfold jewelry_items
    refine List.mem_append.mpr (Or.inl (List.mem_append.mpr (Or.inr ?_)))
    have hn1 : ¬(jewelry.ears.method = "text_description" ∧ jewelry.ears.text ≠ "") := by
      rintro ⟨ha, -⟩
      rw [h2] at ha
      exact absurd ha (by decide)
    have hn2 : jewelry.ears.method ≠ "image_reference" := by
      rw [h2]; decide
    rw [if_pos h1, if_neg hn1, if_neg hn2, if_pos ⟨h2, h3⟩]
    exact List.mem_singleton.mpr rfl
  · unfold jewelry_items
    refine List.mem_append.mpr (Or.inr ?_)
    have hn1 : ¬(jewelry.hands_wrists.method = "text_description"
        ∧ jewelry.hands_wrists.text ≠ "") := by
      rintro ⟨ha, -⟩
      rw [h2] at ha
      exact absurd ha (by decide)
    have hn2 : jewelry.hands_wrists.method ≠ "image_reference" := by
      rw [h2]; decide
    rw [if_pos h1, if_neg hn1, if_neg hn2, if_pos ⟨h2, h3⟩]
    exact List.mem_singleton.mpr rfl

/-- Claim C8, witness: all three locations of `c8_jewelry` (methods
resolved by `determine_method` from text plus image) contribute their
location-specific entries. -/
theorem c8_jewelry_location_specific_witness :
    ("neck: " ++ c8_jewelry.neck.text ++ " (extract jewelry from "
      ++ dict_get c8_mapping ("jewelry_neck") ("the neck jewelry reference image")
      ++ ", ignore person/background)") ∈ jewelry_items c8_jewelry c8_mapping
    ∧ ("ears: " ++ c8_jewelry.ears.text ++ " (extract jewelry from "
        ++ dict_get c8_mapping ("jewelry_ears") ("the ear jewelry reference image")
        ++ ", ignore person/background)") ∈ jewelry_items c8_jewelry c8_mapping
    ∧ ("hands/wrists: " ++ c8_jewelry.hands_wrists.text ++ " (extract jewelry from "
        ++ dict_get c8_mapping ("jewelry_hands") ("the hand/wrist jewelry reference image")
        ++ ", ignore person/background)") ∈ jewelry_items c8_jewelry c8_mapping :=
  ⟨(c8_jewelry_location_specific c8_jewelry c8_mapping).1 (by decide) (by decide) (by decide),
   (c8_jewelry_location_specific c8_jewelry c8_mapping).2.1 (by decide) (by decide) (by decide),
   (c8_jewelry_location_specific c8_jewelry c8_mapping).2.2 (by decide) (by decide) (by decide)⟩

/-- Claim C9: prompt composition is deterministic — `build_photoshoot_prompt`
is a pure function of the configuration and the label mapping, so equal
arguments give byte-identical prompt strings. -/
theorem c9_prompt_deterministic (c₁ c₂ : Config) (m₁ m₂ : List (String × String))
    (hc : c₁ = c₂) (hm : m₁ = m₂) :
    build_photoshoot_prompt c₁ m₁ = build_photoshoot_prompt c₂ m₂ := by
  rw [hc, hm]

/-- Claim C9, witness at a concrete configuration and mapping. -/
theorem c9_prompt_deterministic_witness :
    c7_base_config = c7_base_config
    ∧ build_photoshoot_prompt c7_base_config c8_mapping
        = build_photoshoot_prompt c7_base_config c8_mapping :=
  ⟨rfl, c9_prompt_deterministic c7_base_config c7_base_config c8_mapping c8_mapping rfl rfl⟩

/-- Claim C10: when the batch index is absent, or the batch variety is
neither `dynamic_angles` nor `subtle_variations` (including absent),
`generate_image` leaves the prompt unchanged and the request part list is
exactly the text prompt followed by the prepared image parts. -/
theorem c10_no_variation (p : String) (batch_index : Option Nat)
    (batch_variety : Option String) (image_parts : List RequestPart)
    (h : batch_index = none
         ∨ (batch_variety ≠ some ("dynamic_angles")
            ∧ batch_variety ≠ some ("subtle_variations"))) :
    generate_image_final_prompt p batch_index batch_variety = p
    ∧ generate_request_parts (generate_image_final_prompt p batch_index batch_variety)
        image_parts
      = RequestPart.text p :: image_parts := by
  have hp : generate_image_final_prompt p batch_index batch_variety = p := by
    rcases h with h | ⟨h1, h2⟩
    · rw [h]
      rfl
    · cases batch_index with
      | none => rfl
      | some i => simp [generate_image_final_prompt, h1, h2]
  exact ⟨hp, by rw [hp]; rfl⟩

/-- Claim C10, witness: an unrecognised variety with a present batch index
leaves the prompt untouched. -/
theorem c10_no_variation_witness :
    ((some ("mixed") : Option String) ≠ some ("dynamic_angles")
      ∧ (some ("mixed") : Option String) ≠ some ("subtle_variations"))
    ∧ generate_image_final_prompt ("base prompt") (some 3) (some ("mixed")) = "base prompt"
    ∧ generate_request_parts
        (generate_image_final_prompt ("base prompt") (some 3) (some ("mixed"))) []
      = [RequestPart.text ("base prompt")] :=
  ⟨⟨by decide, by decide⟩,
   (c10_no_variation ("base prompt") (some 3) (some ("mixed")) []
      (Or.inr ⟨by decide, by decide⟩)).1,
   (c10_no_variation ("base prompt") (some 3) (some ("mixed")) []
      (Or.inr ⟨by decide, by decide⟩)).2⟩
